import Mathlib

/-!
Shallow embedding of the world/tilemap subsystem of the repository
(`src/game/world/tilemap.py`, `autotiling.py`, `camera.py`,
`map_generator.py`) together with theorems settling the specification
claims about it.

Modelling conventions:
* Python `int` becomes `Int` (coordinates) or `Nat` (grid dimensions,
  which are non-negative by construction); Python `float` becomes `ℚ`
  (the claims settled here do not depend on binary rounding).
* Mutating methods become functions returning the updated state; a method
  that both mutates and returns a value returns a pair.
* `pygame.Rect` stores four integers; `colliderect` follows pygame 2
  semantics (zero-width or zero-height rectangles collide with nothing,
  negative sizes are normalised by min/max).
* The open `properties` dictionary of `Tile` is not represented: no claim
  and no modelled operation reads or writes it.
-/

namespace Pietrom

/-- Embedding of `pygame.Rect`: x, y, width, height. -/
structure Rect where
  x : Int
  y : Int
  w : Int
  h : Int
deriving DecidableEq

/-- Embedding of `pygame.Rect.colliderect` (pygame 2): rectangles with a
zero width or height never collide; otherwise the normalised intervals
must strictly overlap on both axes. -/
def Rect.colliderect (a b : Rect) : Bool :=
  decide (a.w ≠ 0 ∧ a.h ≠ 0 ∧ b.w ≠ 0 ∧ b.h ≠ 0 ∧
    min a.x (a.x + a.w) < max b.x (b.x + b.w) ∧
    min b.x (b.x + b.w) < max a.x (a.x + a.w) ∧
    min a.y (a.y + a.h) < max b.y (b.y + b.h) ∧
    min b.y (b.y + b.h) < max a.y (a.y + a.h))

/-- Embedding of class `Tile` (tilemap.py): identifier, sprite coordinates,
solidity, hazardousness and damage.  The open `properties` dict is not
modelled (unused by every modelled operation). -/
structure Tile where
  tile_id : Int := 0
  sprite_row : Int := 0
  sprite_col : Int := 0
  solid : Bool := false
  hazard : Bool := false
  damage : Int := 0
deriving DecidableEq

/-- Embedding of enum `TileLayer` (tilemap.py). -/
inductive TileLayer where
  | SOLID
  | DECOR
  | HAZARD
deriving DecidableEq

/-- The string value of each `TileLayer` member (`layer.value`). -/
def TileLayer.value : TileLayer → String
  | .SOLID => "solid"
  | .DECOR => "decor"
  | .HAZARD => "hazard"

/-- Embedding of the enum constructor `TileLayer(name)`: `none` models the
`ValueError` Python raises on an unknown member value. -/
def tileLayerOfString : String → Option TileLayer
  | "solid" => some TileLayer.SOLID
  | "decor" => some TileLayer.DECOR
  | "hazard" => some TileLayer.HAZARD
  | _ => none

/-- Constants of class `TileType` (tilemap.py); only those the modelled
operations consult. -/
def TileType.EMPTY : Int := 0
def TileType.GROUND_BASE : Int := 1
def TileType.GROUND_WORN : Int := 2
def TileType.WALL_BASIC : Int := 3
def TileType.WALL_REINFORCED : Int := 4
def TileType.LASER_TRAP : Int := 12
def TileType.SPIKE_TRAP : Int := 13

/-- `Tilemap.TILE_SIZE`. -/
def TILE_SIZE : Int := 32

/-- A fresh `height × width` grid of default tiles, as built by the
comprehension `[[Tile() for _ in range(width)] for _ in range(height)]`. -/
def mkGrid (width height : Nat) : List (List Tile) :=
  List.replicate height (List.replicate width {})

/-- Embedding of class `Tilemap` (tilemap.py): the three layer grids, the
collision/hazard caches and the dirty flag.  Rendering/debug fields and
the spritesheet are not modelled (no claim touches them). -/
structure Tilemap where
  width : Nat
  height : Nat
  solid : List (List Tile)
  decor : List (List Tile)
  hazard : List (List Tile)
  collision_rects : List Rect := []
  hazard_rects : List (Rect × Int) := []
  collision_cache_dirty : Bool := true
deriving DecidableEq

/-- `Tilemap.__init__` restricted to the modelled fields: fresh empty
layers, empty caches, dirty flag set. -/
def Tilemap.create (width height : Nat) : Tilemap :=
  { width := width, height := height,
    solid := mkGrid width height,
    decor := mkGrid width height,
    hazard := mkGrid width height }

/-- `self.layers[layer]`. -/
def Tilemap.layerGrid (m : Tilemap) : TileLayer → List (List Tile)
  | .SOLID => m.solid
  | .DECOR => m.decor
  | .HAZARD => m.hazard

/-- Replace the grid stored for one layer. -/
def Tilemap.setLayerGrid (m : Tilemap) (layer : TileLayer)
    (g : List (List Tile)) : Tilemap :=
  match layer with
  | .SOLID => { m with solid := g }
  | .DECOR => { m with decor := g }
  | .HAZARD => { m with hazard := g }

/-- The in-place assignment `grid[y][x] = t` on a nested list (write is a
no-op out of range, but every modelled call site is in range). -/
def writeCell (g : List (List Tile)) (x y : Nat) (t : Tile) :
    List (List Tile) :=
  g.set y ((g.getD y []).set x t)

/-- Read `grid[y][x]` with a default tile out of range (every modelled
call site is in range on well-formed grids). -/
def readCell (g : List (List Tile)) (x y : Nat) : Tile :=
  (g.getD y []).getD x {}

/-- Embedding of `Tilemap.set_tile`: bounds-checked write; the dirty flag
is set only when the layer is SOLID (exactly as in the source). -/
def Tilemap.set_tile (m : Tilemap) (layer : TileLayer) (x y : Int)
    (t : Tile) : Tilemap :=
  if 0 ≤ x ∧ x < (m.width : Int) ∧ 0 ≤ y ∧ y < (m.height : Int) then
    let m1 := m.setLayerGrid layer (writeCell (m.layerGrid layer) x.toNat y.toNat t)
    if layer = TileLayer.SOLID then
      { m1 with collision_cache_dirty := true }
    else
      m1
  else
    m

/-- Embedding of `Tilemap.get_tile`: bounds-checked read, `none` out of
bounds. -/
def Tilemap.get_tile (m : Tilemap) (layer : TileLayer) (x y : Int) :
    Option Tile :=
  if 0 ≤ x ∧ x < (m.width : Int) ∧ 0 ≤ y ∧ y < (m.height : Int) then
    some (readCell (m.layerGrid layer) x.toNat y.toNat)
  else
    none

/-- Embedding of `Tilemap.set_tile_by_id`: builds the tile, derives
solid/hazard/damage from the id table, then delegates to `set_tile`. -/
def Tilemap.set_tile_by_id (m : Tilemap) (layer : TileLayer) (x y : Int)
    (tile_id : Int) (sprite_row : Int := 0) (sprite_col : Int := 0) :
    Tilemap :=
  let base : Tile :=
    { tile_id := tile_id, sprite_row := sprite_row, sprite_col := sprite_col }
  let t : Tile :=
    if tile_id = TileType.GROUND_BASE ∨ tile_id = TileType.GROUND_WORN ∨
       tile_id = TileType.WALL_BASIC ∨ tile_id = TileType.WALL_REINFORCED then
      { base with solid := true }
    else if tile_id = TileType.LASER_TRAP ∨ tile_id = TileType.SPIKE_TRAP then
      { base with hazard := true,
                  damage := if tile_id = TileType.SPIKE_TRAP then 10 else 15 }
    else
      base
  m.set_tile layer x y t

/-- The rectangle of the tile at grid position `(x, y)`. -/
def tileRect (x y : Nat) : Rect :=
  { x := x * TILE_SIZE, y := y * TILE_SIZE, w := TILE_SIZE, h := TILE_SIZE }

/-- The collision-rectangle list rebuilt by
`Tilemap._update_collision_cache`: one rect per solid tile of the SOLID
layer, in raster order. -/
def Tilemap.builtCollisionRects (m : Tilemap) : List Rect :=
  ((List.range m.height).map (fun y =>
    (List.range m.width).filterMap (fun x =>
      if (readCell m.solid x y).solid then some (tileRect x y) else none))).flatten

/-- The hazard-rectangle list rebuilt by `Tilemap._update_collision_cache`:
one (rect, damage) pair per hazard tile of the HAZARD layer, in raster
order. -/
def Tilemap.builtHazardRects (m : Tilemap) : List (Rect × Int) :=
  ((List.range m.height).map (fun y =>
    (List.range m.width).filterMap (fun x =>
      let t := readCell m.hazard x y
      if t.hazard then some (tileRect x y, t.damage) else none))).flatten

/-- Embedding of `Tilemap._update_collision_cache`: early return when the
flag is clean, otherwise rebuild both lists and clear the flag. -/
def Tilemap.update_collision_cache (m : Tilemap) : Tilemap :=
  if m.collision_cache_dirty = false then m
  else
    { m with collision_rects := m.builtCollisionRects,
             hazard_rects := m.builtHazardRects,
             collision_cache_dirty := false }

/-- Embedding of `Tilemap.get_collision_rects`: rebuild if dirty, return
the cached list (paired with the updated state). -/
def Tilemap.get_collision_rects (m : Tilemap) : Tilemap × List Rect :=
  let m2 := m.update_collision_cache
  (m2, m2.collision_rects)

/-- Embedding of `Tilemap.get_hazard_rects`. -/
def Tilemap.get_hazard_rects (m : Tilemap) : Tilemap × List (Rect × Int) :=
  let m2 := m.update_collision_cache
  (m2, m2.hazard_rects)

/-- Embedding of `Tilemap.check_hazard_collision`: total damage of the
cached hazard rectangles colliding with `rect`, accumulated left to
right as in the Python loop. -/
def Tilemap.check_hazard_collision (m : Tilemap) (rect : Rect) :
    Tilemap × Int :=
  let p := m.get_hazard_rects
  (p.1, p.2.foldl
    (fun acc hd => if rect.colliderect hd.1 then acc + hd.2 else acc) 0)

/-! ### Autotiling (`autotiling.py`) -/

/-- Embedding of enum `AutotileType`. -/
inductive AutotileType where
  | GROUND
  | WALLS
deriving DecidableEq

/-- Embedding of the `AutotilingSystem.BITMASK_TO_TILE` dictionary as an
association list, entries in source order. -/
def BITMASK_TO_TILE : List (Nat × Nat) :=
  [(0, 46),
   (2, 0), (8, 1), (10, 2),
   (16, 3), (64, 4), (80, 5),
   (18, 6), (24, 7), (72, 8), (96, 9),
   (22, 10), (31, 11), (104, 12), (248, 13),
   (26, 14), (88, 15), (30, 16), (120, 17),
   (122, 18),
   (66, 19), (82, 20),
   (90, 21), (106, 22),
   (127, 23), (255, 24),
   (1, 25), (4, 26), (32, 27), (128, 28),
   (3, 29), (6, 30), (12, 31), (17, 32),
   (33, 33), (34, 34), (36, 35), (48, 36),
   (65, 37), (68, 38), (129, 39), (130, 40),
   (132, 41), (136, 42), (144, 43), (160, 44),
   (192, 45)]

/-- `BITMASK_TO_TILE.get(bitmask, 0)`. -/
def bitmaskToTile (bm : Nat) : Nat :=
  ((BITMASK_TO_TILE.find? (fun p => p.1 == bm)).map (fun p => p.2)).getD 0

/-- The neighbor test of `calculate_bitmask` line 98:
`0 <= ny < len(grid) and 0 <= nx < len(grid[ny]) and grid[ny][nx]`. -/
def occupiedAt (grid : List (List Bool)) (nx ny : Int) : Bool :=
  decide (0 ≤ ny ∧ ny < (grid.length : Int) ∧
          0 ≤ nx ∧ nx < ((grid.getD ny.toNat []).length : Int)) &&
  (grid.getD ny.toNat []).getD nx.toNat false

/-- The eight neighbor directions of `calculate_bitmask` paired with their
bit values, in source order (NW, N, NE, W, E, SW, S, SE). -/
def bitmaskDirections : List ((Int × Int) × Nat) :=
  [((-1, -1), 1), ((0, -1), 2), ((1, -1), 4),
   ((-1, 0), 8), ((1, 0), 16),
   ((-1, 1), 32), ((0, 1), 64), ((1, 1), 128)]

/-- Embedding of `AutotilingSystem.calculate_bitmask`: 0 for an absent
grid, an out-of-bounds target (bounds per `len(grid)` / `len(grid[0])`)
or an unoccupied target; otherwise the bitwise or of the bit values of
the occupied neighbors. -/
def calculate_bitmask (grid : List (List Bool)) (x y : Int) : Nat :=
  if grid.length = 0 ∨ y < 0 ∨ (grid.length : Int) ≤ y ∨
     x < 0 ∨ ((grid.headD []).length : Int) ≤ x then 0
  else if (grid.getD y.toNat []).getD x.toNat false = false then 0
  else
    bitmaskDirections.foldl
      (fun bm d =>
        if occupiedAt grid (x + d.1.1) (y + d.1.2) then bm ||| d.2 else bm) 0

/-- Embedding of `AutotilingSystem.get_autotile_index`. -/
def get_autotile_index (grid : List (List Bool)) (x y : Int) : Nat :=
  bitmaskToTile (calculate_bitmask grid x y)

/-- Embedding of `AutotilingSystem.generate_autotile_grid`: `[]` for an
absent grid, otherwise per cell the table index (occupied) or the
sentinel -1 (unoccupied); the `tile_type` argument is accepted and, as in
the source, never read. -/
def generate_autotile_grid (grid : List (List Bool))
    (_tile_type : AutotileType) : List (List Int) :=
  if grid.length = 0 then []
  else
    (List.range grid.length).map (fun y =>
      (List.range (grid.headD []).length).map (fun x =>
        if (grid.getD y []).getD x false then
          (get_autotile_index grid (x : Int) (y : Int) : Int)
        else
          -1))

/-- A grid is rectangular when every row has the length of row 0 (the
Python code indexes with `len(grid[0])`, well defined only then). -/
def Rectangular (grid : List (List Bool)) : Prop :=
  ∀ row ∈ grid, row.length = (grid.headD []).length

instance (grid : List (List Bool)) : Decidable (Rectangular grid) := by
  unfold Rectangular
  infer_instance

/-- Specification-side weight sum of C4: the sum of the bit weights over
the occupied neighbors of the target, weights and directions as in the
claim (NW=1, N=2, NE=4, W=8, E=16, SW=32, S=64, SE=128). -/
def neighborWeightSum (grid : List (List Bool)) (x y : Int) : Nat :=
  bitmaskDirections.foldl
    (fun s d =>
      s + (if occupiedAt grid (x + d.1.1) (y + d.1.2) then d.2 else 0)) 0

/-! ### Camera (`camera.py`) -/

/-- Embedding of class `Camera`: current position, viewport size, target
position and smoothing factor.  Floats are modelled by `ℚ`; the claims
settled here do not depend on binary rounding (the source smoothing
constant is the float literal 0.1). -/
structure Camera where
  x : ℚ
  y : ℚ
  width : Int
  height : Int
  target_x : ℚ
  target_y : ℚ
  smoothing : ℚ
deriving DecidableEq

/-- Embedding of `Camera.update`.  `level_width` / `level_height` default
to `None`; the source guards the clamps with `if level_width:` /
`if level_height:`, so `None` and `0` both skip the clamp (Python
truthiness).  `self.width // 2` is Python floor division.  The `dt`
argument is accepted and, as in the source, never read. -/
def Camera.update (c : Camera) (_dt : ℚ) (target_x target_y : ℚ)
    (level_width : Option Int := none) (level_height : Option Int := none) :
    Camera :=
  let tx : ℚ := target_x - ((Int.fdiv c.width 2 : Int) : ℚ)
  let ty : ℚ := target_y - ((Int.fdiv c.height 2 : Int) : ℚ)
  let x1 : ℚ := c.x + (tx - c.x) * c.smoothing
  let y1 : ℚ := c.y + (ty - c.y) * c.smoothing
  let x2 : ℚ :=
    match level_width with
    | none => x1
    | some w => if w = 0 then x1 else max 0 (min x1 ((w : ℚ) - (c.width : ℚ)))
  let y2 : ℚ :=
    match level_height with
    | none => y1
    | some h => if h = 0 then y1 else max 0 (min y1 ((h : ℚ) - (c.height : ℚ)))
  { c with x := x2, y := y2, target_x := tx, target_y := ty }

/-- Python `int(q)` on a float: truncation toward zero.  `Int.div`
truncates toward zero and `q.den` is positive. -/
def truncInt (q : ℚ) : Int :=
  q.num.tdiv (q.den : Int)

/-- Embedding of `Camera.world_to_screen`: truncating affine transform to
integer screen coordinates. -/
def Camera.world_to_screen (c : Camera) (world_x world_y : ℚ) : Int × Int :=
  (truncInt (world_x - c.x), truncInt (world_y - c.y))

/-- Embedding of `Camera.screen_to_world`: exact affine transform back to
world coordinates. -/
def Camera.screen_to_world (c : Camera) (screen_x screen_y : Int) : ℚ × ℚ :=
  ((screen_x : ℚ) + c.x, (screen_y : ℚ) + c.y)

/-! ### MapGenerator.clear_area (`map_generator.py`) -/

/-- Python `range(a, b)` on integers: `[a, a+1, ..., b-1]`. -/
def intRange (a b : Int) : List Int :=
  (List.range (b - a).toNat).map (fun i => a + i)

/-- The body of the `clear_area` loops.  For each cell the innermost loop
first evaluates `self.tilemap.Tile(TileType.EMPTY, 0, 0)`; class `Tilemap`
has no attribute `Tile` (the `Tile` class is a module-level name in
`tilemap.py` and is not imported by `map_generator.py`), so the very first
iteration raises `AttributeError` before any `set_tile` runs.  An empty
cell list runs no iteration and succeeds. -/
def clearAreaCells (m : Tilemap) : List (Int × Int) → Except String Tilemap
  | [] => .ok m
  | _ :: _ => .error "AttributeError: Tilemap object has no attribute Tile"

/-- Embedding of `MapGenerator.clear_area`: iterate
`range(y, min(y + height, tilemap.height))` ×
`range(x, min(x + width, tilemap.width))`; the loop body raises (see
`clearAreaCells`). -/
def clear_area (m : Tilemap) (x y width height : Int) :
    Except String Tilemap :=
  clearAreaCells m
    (((intRange y (min (y + height) (m.height : Int))).map (fun cy =>
      (intRange x (min (x + width) (m.width : Int))).map (fun cx =>
        (cx, cy)))).flatten)

/-! ### Serialization (`Tilemap.save_to_json` / `Tilemap.load_from_json`)

`save_to_json` builds a plain dictionary and dumps it as JSON;
`load_from_json` parses the JSON back into the same shape of dictionary
before touching the tilemap.  JSON dump/parse round-trips this structure,
so the embedding works on the structured data directly: `SaveData` is the
parsed dictionary, with `Option` marking keys that may be absent in a
malformed file (Python raises `KeyError` on `data[k]` for an absent key,
while `data.get(k, d)` substitutes the default). -/

/-- The parsed per-tile dictionary.  `id`, `sprite_row` and `sprite_col`
are read with `[]` (KeyError if absent); `solid`, `hazard` and `damage`
are read with `.get` and a default. -/
structure TileData where
  id? : Option Int
  sprite_row? : Option Int
  sprite_col? : Option Int
  solid? : Option Bool
  hazard? : Option Bool
  damage? : Option Int
deriving DecidableEq

/-- The parsed top-level dictionary: `width`, `height` and `layers` are
read with `[]` (KeyError if absent); layer names are strings keyed into
`TileLayer(...)` during the load. -/
structure SaveData where
  width? : Option Nat
  height? : Option Nat
  layers? : Option (List (String × List (List TileData)))
deriving DecidableEq

/-- The per-tile dictionary written by `save_to_json` (every key
present). -/
def encodeTile (t : Tile) : TileData :=
  { id? := some t.tile_id, sprite_row? := some t.sprite_row,
    sprite_col? := some t.sprite_col, solid? := some t.solid,
    hazard? := some t.hazard, damage? := some t.damage }

/-- The per-layer rows written by `save_to_json` (`for y in
range(self.height): for x in range(self.width)`). -/
def encodeGrid (g : List (List Tile)) (width height : Nat) :
    List (List TileData) :=
  (List.range height).map (fun y =>
    (List.range width).map (fun x => encodeTile (readCell g x y)))

/-- Embedding of `Tilemap.save_to_json` up to JSON dump: the structured
data written to the file.  `self.layers.items()` iterates in insertion
order SOLID, DECOR, HAZARD. -/
def Tilemap.save_to_json (m : Tilemap) : SaveData :=
  { width? := some m.width, height? := some m.height,
    layers? := some
      [("solid", encodeGrid m.solid m.width m.height),
       ("decor", encodeGrid m.decor m.width m.height),
       ("hazard", encodeGrid m.hazard m.width m.height)] }

/-- Result of a partially executed loading loop over one layer grid:
`cont` finished normally, `caught` stopped on an exception the `except`
clause of `load_from_json` catches (KeyError), `uncaught` stopped on an
exception it does not catch (IndexError from `layer_tiles[y][x]`).  Each
carries the grid as mutated so far. -/
inductive GridRes where
  | cont (g : List (List Tile))
  | caught (g : List (List Tile))
  | uncaught (g : List (List Tile))
deriving DecidableEq

/-- The inner `for x in range(self.width)` loop of `load_from_json` for a
fixed row `y`: read `layer_tiles[y][x]` (IndexError if absent), read the
mandatory keys in evaluation order (KeyError if absent), build the tile
with the defaulted keys and assign `self.layers[layer][y][x] = tile`. -/
def loadCellsX (g : List (List Tile)) (lt : List (List TileData)) (y : Nat) :
    List Nat → GridRes
  | [] => .cont g
  | x :: xs =>
    match lt.get? y with
    | none => .uncaught g
    | some row =>
      match row.get? x with
      | none => .uncaught g
      | some td =>
        match td.id?, td.sprite_row?, td.sprite_col? with
        | some i, some r, some c =>
          loadCellsX
            (writeCell g x y
              { tile_id := i, sprite_row := r, sprite_col := c,
                solid := td.solid?.getD false, hazard := td.hazard?.getD false,
                damage := td.damage?.getD 0 })
            lt y xs
        | _, _, _ => .caught g

/-- The outer `for y in range(self.height)` loop of `load_from_json`. -/
def loadCellsY (g : List (List Tile)) (lt : List (List TileData))
    (width : Nat) : List Nat → GridRes
  | [] => .cont g
  | y :: ys =>
    match loadCellsX g lt y (List.range width) with
    | .cont g2 => loadCellsY g2 lt width ys
    | .caught g2 => .caught g2
    | .uncaught g2 => .uncaught g2

/-- Result of the whole `load_from_json` call: `ok` for a completed load,
`caught` when a FileNotFoundError / JSONDecodeError / KeyError was caught
and logged, `uncaught` when a ValueError (unknown layer name) or
IndexError escaped the handler.  Each carries the tilemap state on
return, mutations included. -/
inductive LoadOutcome where
  | ok (m : Tilemap)
  | caught (m : Tilemap)
  | uncaught (m : Tilemap)
deriving DecidableEq

/-- The `for layer_name, layer_tiles in data['layers'].items()` loop:
`TileLayer(layer_name)` raises ValueError (uncaught) on an unknown name,
then the cell loops fill the layer grid in place. -/
def loadLayers (m : Tilemap) :
    List (String × List (List TileData)) → LoadOutcome
  | [] => .ok m
  | (name, lt) :: rest =>
    match tileLayerOfString name with
    | none => .uncaught m
    | some layer =>
      match loadCellsY (m.layerGrid layer) lt m.width (List.range m.height) with
      | .cont g => loadLayers (m.setLayerGrid layer g) rest
      | .caught g => .caught (m.setLayerGrid layer g)
      | .uncaught g => .uncaught (m.setLayerGrid layer g)

/-- What `load_from_json` is given: a missing file (FileNotFoundError
from `open`), an unparsable file (json.JSONDecodeError from `json.load`)
or parsed data. -/
inductive LoadInput where
  | missingFile
  | unparsable
  | parsed (d : SaveData)
deriving DecidableEq

/-- Embedding of `Tilemap.load_from_json`, statement for statement:
`self.width = data['width']`, then `self.height = data['height']`, then
the three layer grids are re-created at the new size, then the grids are
filled from `data['layers']`, and only a fully successful load sets the
dirty flag.  Mutations made before an exception stay applied. -/
def Tilemap.load_from_json (m : Tilemap) : LoadInput → LoadOutcome
  | .missingFile => .caught m
  | .unparsable => .caught m
  | .parsed d =>
    match d.width? with
    | none => .caught m
    | some w =>
      let m1 := { m with width := w }
      match d.height? with
      | none => .caught m1
      | some h =>
        let m2 := { m1 with
            height := h,
            solid := mkGrid w h,
            decor := mkGrid w h,
            hazard := mkGrid w h }
        match d.layers? with
        | none => .caught m2
        | some ls =>
          match loadLayers m2 ls with
          | .ok m3 => .ok { m3 with collision_cache_dirty := true }
          | .caught m3 => .caught m3
          | .uncaught m3 => .uncaught m3

/-! ### Specification-side definitions and well-formedness -/

/-- Specification-side damage sum of C3: the total damage of the hazard
tiles of the HAZARD layer whose tile rectangle collides with `R`. -/
def hazardDamageSum (m : Tilemap) (R : Rect) : Int :=
  (((List.range m.height).map (fun y =>
    (List.range m.width).map (fun x =>
      let t := readCell m.hazard x y
      if t.hazard ∧ R.colliderect (tileRect x y) then t.damage else 0))).flatten).sum

/-- The collision/hazard cache of a tilemap is coherent: either the dirty
flag is set (the next read rebuilds) or the cached lists agree with the
layer grids.  Every state reachable without the un-flagged HAZARD
mutation of claim C1 satisfies this. -/
def cacheCoherent (m : Tilemap) : Prop :=
  m.collision_cache_dirty = true ∨
    (m.collision_rects = m.builtCollisionRects ∧
     m.hazard_rects = m.builtHazardRects)

instance (m : Tilemap) : Decidable (cacheCoherent m) := by
  unfold cacheCoherent
  infer_instance

/-- A layer grid has the class-invariant shape: `height` rows of `width`
tiles. -/
def gridWF (g : List (List Tile)) (width height : Nat) : Prop :=
  g.length = height ∧ ∀ row ∈ g, row.length = width

instance (g : List (List Tile)) (w h : Nat) : Decidable (gridWF g w h) := by
  unfold gridWF
  infer_instance

/-- The `Tilemap` class invariant on the modelled fields: all three layer
grids have `height` rows of `width` tiles (true of every map the source
constructs). -/
def Tilemap.WF (m : Tilemap) : Prop :=
  gridWF m.solid m.width m.height ∧ gridWF m.decor m.width m.height ∧
    gridWF m.hazard m.width m.height

instance (m : Tilemap) : Decidable m.WF := by
  unfold Tilemap.WF
  infer_instance

/-! ### Concrete inputs used by witnesses and counterexamples -/

/-- A 1×1 tilemap fresh from the constructor. -/
def exMap1 : Tilemap := Tilemap.create 1 1

/-- A spike-trap tile (id 13, hazard, damage 10), as `set_tile_by_id`
builds it. -/
def exSpike : Tile :=
  { tile_id := TileType.SPIKE_TRAP, hazard := true, damage := 10 }

/-- The C1 failing state: rebuild the cache of a fresh 1×1 map (clearing
the dirty flag), then write a hazard tile into the HAZARD layer. -/
def exStale : Tilemap :=
  ((Tilemap.get_hazard_rects exMap1).1).set_tile TileLayer.HAZARD 0 0 exSpike

/-- A 2×2 map with one spike trap at (1, 0) in the HAZARD layer, dirty
flag still set from construction. -/
def exHzMap : Tilemap :=
  (Tilemap.create 2 2).set_tile_by_id TileLayer.HAZARD 1 0 TileType.SPIKE_TRAP

/-- A 2×2 map with one solid ground tile at (0, 0). -/
def exC6Map : Tilemap :=
  (Tilemap.create 2 2).set_tile_by_id TileLayer.SOLID 0 0 TileType.GROUND_BASE

/-- Parsed content of a malformed save file: valid `width` and `height`
keys, no `layers` key. -/
def exC6Data : SaveData := { width? := some 5, height? := some 5, layers? := none }

/-- The state `load_from_json` leaves behind on `exC6Data`: dimensions
overwritten and all three layers blanked at the new size. -/
def exC6After : Tilemap :=
  { exC6Map with
      width := 5,
      height := 5,
      solid := mkGrid 5 5,
      decor := mkGrid 5 5,
      hazard := mkGrid 5 5 }

/-- A camera whose position has fractional part 1/2 on both axes. -/
def exCamHalf : Camera :=
  { x := 1/2, y := 1/2, width := 100, height := 100,
    target_x := 0, target_y := 0, smoothing := 1/10 }

/-- A camera with integer position (2, 3). -/
def exCamInt : Camera :=
  { x := 2, y := 3, width := 100, height := 100,
    target_x := 0, target_y := 0, smoothing := 1/10 }

/-- A camera whose 200×200 viewport exceeds the 100×100 level bounds
supplied to `update` in the C8 counterexample. -/
def exCamBig : Camera :=
  { x := 0, y := 0, width := 200, height := 200,
    target_x := 0, target_y := 0, smoothing := 1/10 }

/-- A camera with a 100×100 viewport, for the C8 witness. -/
def exCamSmall : Camera :=
  { x := 7, y := 9, width := 100, height := 100,
    target_x := 0, target_y := 0, smoothing := 1/10 }

/-- A 5×5 all-occupied boolean grid (the spec's example scenario). -/
def exGrid5 : List (List Bool) := List.replicate 5 (List.replicate 5 true)

/-! ## Theorems -/

/-! ### Helper lemmas on truncation -/

lemma truncInt_of_nonneg {q : ℚ} (h : 0 ≤ q) : truncInt q = ⌊q⌋ := by
  unfold truncInt
  rw [Rat.floor_def]
  exact Int.tdiv_eq_ediv (Rat.num_nonneg.mpr h) (Int.natCast_nonneg _)

lemma truncInt_neg (q : ℚ) : truncInt (-q) = -truncInt q := by
  unfold truncInt
  have h1 : (-q).num = -q.num := rfl
  have h2 : (-q).den = q.den := rfl
  rw [h1, h2, Int.neg_tdiv]

lemma truncInt_intCast (k : Int) : truncInt (k : ℚ) = k := by
  unfold truncInt
  rw [Rat.num_intCast, Rat.den_intCast]
  simp

/-- C7: for every layer and every coordinate (x, y) outside the grid
bounds, `get_tile` returns `none` and `set_tile` returns the tilemap
unchanged (no field, hence no dimension and no cell of any layer, is
modified); in the embedding neither raises. -/
theorem C7_out_of_bounds_get_absent_set_ignored (m : Tilemap)
    (layer : TileLayer) (x y : Int) (t : Tile)
    (h : ¬ (0 ≤ x ∧ x < (m.width : Int) ∧ 0 ≤ y ∧ y < (m.height : Int))) :
    m.get_tile layer x y = none ∧ m.set_tile layer x y t = m := by
  unfold Tilemap.get_tile Tilemap.set_tile
  rw [if_neg h, if_neg h]
  exact ⟨rfl, rfl⟩

/-- Witness for C7 at the concrete out-of-bounds coordinate (-1, 0) of a
2×2 map. -/
theorem C7_witness :
    (¬ (0 ≤ (-1 : Int) ∧ (-1 : Int) < ((Tilemap.create 2 2).width : Int) ∧
        0 ≤ (0 : Int) ∧ (0 : Int) < ((Tilemap.create 2 2).height : Int))) ∧
    ((Tilemap.create 2 2).get_tile TileLayer.SOLID (-1) 0 = none ∧
     (Tilemap.create 2 2).set_tile TileLayer.SOLID (-1) 0 {} =
       Tilemap.create 2 2) :=
  ⟨by decide,
   C7_out_of_bounds_get_absent_set_ignored (Tilemap.create 2 2)
     TileLayer.SOLID (-1) 0 {} (by decide)⟩

/-- C10 (code bug): `clear_area` on any non-empty in-bounds area raises
`AttributeError` at the first cell — `Tilemap` has no attribute `Tile` —
instead of completing and emptying the area.  Evaluated at the failing
input `clear_area(0, 0, 1, 1)` on a 2×2 map. -/
theorem C10_clear_area_raises_attribute_error :
    clear_area (Tilemap.create 2 2) 0 0 1 1 =
      .error "AttributeError: Tilemap object has no attribute Tile" := by
  rfl

/-- C1 (code bug): writing a hazard tile into the HAZARD layer via
`set_tile` does not mark the collision/hazard cache dirty, so the next
`get_hazard_rects` returns the stale (empty) cached list even though the
grid now holds a hazard tile.  Evaluated at the failing input: a fresh
1×1 map whose cache was rebuilt once, then `set_tile(HAZARD, 0, 0,
spike)`. -/
theorem C1_hazard_edit_leaves_cache_clean_and_stale :
    exStale.collision_cache_dirty = false ∧
    (readCell exStale.hazard 0 0).hazard = true ∧
    (Tilemap.get_hazard_rects exStale).2 = [] := by
  decide

/-- C6 (code bug): loading parsed data `{width: 5, height: 5}` with no
`layers` key into a 2×2 map with content ends in a caught `KeyError`,
but the map's width, height and all three layer grids have already been
overwritten — partial state is applied, the caller does not keep its
previous state. -/
theorem C6_malformed_load_applies_partial_state :
    exC6Map.load_from_json (.parsed exC6Data) = .caught exC6After ∧
    exC6After.width ≠ exC6Map.width ∧
    exC6After.solid ≠ exC6Map.solid := by
  decide

/-- C9 counterexample: for the camera at position (1/2, 1/2),
`screen_to_world(world_to_screen(0, 0))` is (1/2, 1/2), not (0, 0): the
two transforms are not exact inverses on every point. -/
theorem C9_counterexample_trunc_loses_fraction :
    exCamHalf.screen_to_world (exCamHalf.world_to_screen 0 0).1
        (exCamHalf.world_to_screen 0 0).2 ≠ ((0 : ℚ), (0 : ℚ)) := by
  have harg : ((0 : ℚ) - 1/2) = -(1/2) := by norm_num
  have htr : truncInt ((0 : ℚ) - 1/2) = 0 := by
    rw [harg, truncInt_neg, truncInt_of_nonneg (by norm_num)]
    norm_num
  have hw : exCamHalf.world_to_screen 0 0 = (0, 0) := by
    unfold exCamHalf Camera.world_to_screen
    simp only
    rw [htr]
  rw [hw]
  unfold exCamHalf Camera.screen_to_world
  simp only
  intro hcontra
  have := congrArg Prod.fst hcontra
  norm_num at this

/-- C8 counterexample: with level bounds (100, 100) supplied on the
update of a camera whose viewport is 200×200, the clamped position is 0,
which does not lie in the claimed interval [0, W - w] = [0, -100]. -/
theorem C8_counterexample_viewport_larger_than_level :
    ¬ ((exCamBig.update 1 0 0 (some 100) (some 100)).x ≤
        (100 : ℚ) - (exCamBig.width : ℚ)) := by
  have hfd : (Int.fdiv 200 2 : Int) = 100 := rfl
  unfold exCamBig Camera.update
  simp only [hfd]
  norm_num

/-- C8 amended: when positive level bounds at least as large as the
viewport are supplied, every `update` call leaves the position clamped
into [0, W - w] × [0, H - h] — hence after any sequence of updates whose
last call supplies such bounds the position lies in that box. -/
theorem C8_amended_update_clamps_into_bounds (c : Camera) (dt tx ty : ℚ)
    (W H : Int) (hW : 0 < W) (hH : 0 < H)
    (hw : c.width ≤ W) (hh : c.height ≤ H) :
    (0 ≤ (c.update dt tx ty (some W) (some H)).x ∧
     (c.update dt tx ty (some W) (some H)).x ≤ (W : ℚ) - (c.width : ℚ)) ∧
    (0 ≤ (c.update dt tx ty (some W) (some H)).y ∧
     (c.update dt tx ty (some W) (some H)).y ≤ (H : ℚ) - (c.height : ℚ)) := by
  unfold Camera.update
  simp only
  rw [if_neg (by omega : ¬ W = 0), if_neg (by omega : ¬ H = 0)]
  have hwq : (0 : ℚ) ≤ (W : ℚ) - (c.width : ℚ) := by
    rw [sub_nonneg]
    exact_mod_cast hw
  have hhq : (0 : ℚ) ≤ (H : ℚ) - (c.height : ℚ) := by
    rw [sub_nonneg]
    exact_mod_cast hh
  exact ⟨⟨le_max_left _ _, max_le hwq (min_le_right _ _)⟩,
         ⟨le_max_left _ _, max_le hhq (min_le_right _ _)⟩⟩

/-- Witness for C8 amended: a 100×100 viewport camera updated with level
bounds (200, 200). -/
theorem C8_amended_witness :
    ((0 : Int) < 200 ∧ (0 : Int) < 200 ∧
     exCamSmall.width ≤ 200 ∧ exCamSmall.height ≤ 200) ∧
    ((0 ≤ (exCamSmall.update 1 0 0 (some 200) (some 200)).x ∧
      (exCamSmall.update 1 0 0 (some 200) (some 200)).x ≤
        (200 : ℚ) - (exCamSmall.width : ℚ)) ∧
     (0 ≤ (exCamSmall.update 1 0 0 (some 200) (some 200)).y ∧
      (exCamSmall.update 1 0 0 (some 200) (some 200)).y ≤
        (200 : ℚ) - (exCamSmall.height : ℚ))) :=
  ⟨⟨by decide, by decide, by decide, by decide⟩,
   C8_amended_update_clamps_into_bounds exCamSmall 1 0 0 200 200
     (by decide) (by decide) (by decide) (by decide)⟩

/-- C9 amended: `world_to_screen` truncates toward zero, so the
transforms are inverse only up to that truncation: composing
screen→world→screen is the identity on all integer screen points, and
composing world→screen→world returns the original world point exactly
when the point differs from the camera position by integers on both
axes. -/
theorem C9_amended_affine_roundtrips (c : Camera) (sx sy : Int) (wx wy : ℚ)
    (hx : ∃ k : Int, wx - c.x = (k : ℚ)) (hy : ∃ k : Int, wy - c.y = (k : ℚ)) :
    c.world_to_screen (c.screen_to_world sx sy).1 (c.screen_to_world sx sy).2
        = (sx, sy) ∧
    c.screen_to_world (c.world_to_screen wx wy).1 (c.world_to_screen wx wy).2
        = (wx, wy) := by
  obtain ⟨kx, hkx⟩ := hx
  obtain ⟨ky, hky⟩ := hy
  unfold Camera.world_to_screen Camera.screen_to_world
  simp only
  constructor
  · rw [add_sub_cancel_right, add_sub_cancel_right, truncInt_intCast,
      truncInt_intCast]
  · rw [hkx, hky, truncInt_intCast, truncInt_intCast, hkx.symm, hky.symm]
    rw [sub_add_cancel, sub_add_cancel]

/-- Witness for C9 amended: the camera at integer position (2, 3), screen
point (3, -4) and world point (5, 7). -/
theorem C9_amended_witness :
    ((∃ k : Int, (5 : ℚ) - exCamInt.x = (k : ℚ)) ∧
     (∃ k : Int, (7 : ℚ) - exCamInt.y = (k : ℚ))) ∧
    (exCamInt.world_to_screen (exCamInt.screen_to_world 3 (-4)).1
        (exCamInt.screen_to_world 3 (-4)).2 = (3, -4) ∧
     exCamInt.screen_to_world (exCamInt.world_to_screen 5 7).1
        (exCamInt.world_to_screen 5 7).2 = (5, 7)) :=
  ⟨⟨⟨3, by norm_num [exCamInt]⟩, ⟨4, by norm_num [exCamInt]⟩⟩,
   C9_amended_affine_roundtrips exCamInt 3 (-4) 5 7
     ⟨3, by norm_num [exCamInt]⟩ ⟨4, by norm_num [exCamInt]⟩⟩

/-! ### Helper lemmas for autotiling -/

lemma getD_map_range {α : Type} (f : Nat → α) {n i : Nat} (h : i < n) (d : α) :
    ((List.range n).map f).getD i d = f i := by
  rw [List.getD_eq_getElem?_getD, List.getElem?_map, List.getElem?_range h]
  rfl

lemma rect_row_len {grid : List (List Bool)} (hrect : Rectangular grid)
    {n : Nat} (hn : n < grid.length) :
    (grid.getD n []).length = (grid.headD []).length := by
  apply hrect
  rw [List.getD_eq_getElem _ _ hn]
  exact List.getElem_mem hn

lemma bitmaskToTile_le (bm : Nat) : bitmaskToTile bm ≤ 46 := by
  unfold bitmaskToTile
  cases hfind : BITMASK_TO_TILE.find? (fun p => p.1 == bm) with
  | none => simp
  | some p =>
    have hp : p ∈ BITMASK_TO_TILE := List.mem_of_find?_eq_some hfind
    have hall : ∀ q ∈ BITMASK_TO_TILE, q.2 ≤ 46 := by decide
    simpa using hall p hp

/-- C4: on a rectangular grid, `calculate_bitmask` returns the sum of the
weights NW=1, N=2, NE=4, W=8, E=16, SW=32, S=64, SE=128 over the occupied
neighbors of the target (out-of-bounds neighbors, like an absent grid,
count as unoccupied), and returns 0 whenever the target cell itself is
unoccupied or out of bounds. -/
theorem C4_bitmask_is_weighted_neighbor_sum (grid : List (List Bool))
    (hrect : Rectangular grid) (x y : Int) :
    calculate_bitmask grid x y
      = if occupiedAt grid x y then neighborWeightSum grid x y else 0 := by
  unfold calculate_bitmask
  by_cases hocc : occupiedAt grid x y = true
  · have hocc' := hocc
    unfold occupiedAt at hocc'
    rw [Bool.and_eq_true, decide_eq_true_iff] at hocc'
    obtain ⟨⟨hy0, hylt, hx0, hxlt⟩, hcell⟩ := hocc'
    have hyn : y.toNat < grid.length := by omega
    have hrow := rect_row_len hrect hyn
    rw [if_neg (by rw [hrow] at hxlt; omega),
      if_neg (by simp only [hcell]; decide), if_pos hocc]
    unfold neighborWeightSum
    simp only [bitmaskDirections, List.foldl_cons, List.foldl_nil]
    cases occupiedAt grid (x + -1) (y + -1) <;>
      cases occupiedAt grid (x + 0) (y + -1) <;>
      cases occupiedAt grid (x + 1) (y + -1) <;>
      cases occupiedAt grid (x + -1) (y + 0) <;>
      cases occupiedAt grid (x + 1) (y + 0) <;>
      cases occupiedAt grid (x + -1) (y + 1) <;>
      cases occupiedAt grid (x + 0) (y + 1) <;>
      cases occupiedAt grid (x + 1) (y + 1) <;>
      decide
  · rw [if_neg hocc]
    by_cases hC : grid.length = 0 ∨ y < 0 ∨ (grid.length : Int) ≤ y ∨
        x < 0 ∨ ((grid.headD []).length : Int) ≤ x
    · rw [if_pos hC]
    · rw [if_neg hC]
      push_neg at hC
      obtain ⟨hne, hy0, hylt, hx0, hxlt⟩ := hC
      have hyn : y.toNat < grid.length := by omega
      have hrow := rect_row_len hrect hyn
      have hcell : (grid.getD y.toNat []).getD x.toNat false = false := by
        by_contra hnc
        apply hocc
        unfold occupiedAt
        rw [Bool.and_eq_true, decide_eq_true_iff]
        exact ⟨⟨hy0, hylt, hx0, by rw [hrow]; omega⟩, by simpa using hnc⟩
      rw [if_pos hcell]

/-- Witness for C4 at the center of the all-occupied 5×5 grid. -/
theorem C4_witness :
    Rectangular exGrid5 ∧
    calculate_bitmask exGrid5 2 2
      = (if occupiedAt exGrid5 2 2 then neighborWeightSum exGrid5 2 2 else 0) :=
  ⟨by decide, C4_bitmask_is_weighted_neighbor_sum exGrid5 (by decide) 2 2⟩

/-- C5: on a rectangular grid, each cell emitted by
`generate_autotile_grid` is the fixed-table index of the cell's bitmask
when the cell is occupied — a value in [0, 46], falling back to 0 when
the bitmask has no table entry — and the sentinel -1 when the cell is
unoccupied. -/
theorem C5_autotile_grid_cell (grid : List (List Bool)) (t : AutotileType)
    (_hrect : Rectangular grid) (x y : Nat)
    (hy : y < grid.length) (hx : x < (grid.headD []).length) :
    (((generate_autotile_grid grid t).getD y []).getD x 0
       = if (grid.getD y []).getD x false
         then (bitmaskToTile (calculate_bitmask grid (x : Int) (y : Int)) : Int)
         else -1)
    ∧ (0 : Int) ≤ (bitmaskToTile (calculate_bitmask grid (x : Int) (y : Int)) : Int)
    ∧ (bitmaskToTile (calculate_bitmask grid (x : Int) (y : Int)) : Int) ≤ 46
    ∧ (BITMASK_TO_TILE.find?
         (fun p => p.1 == calculate_bitmask grid (x : Int) (y : Int)) = none →
       bitmaskToTile (calculate_bitmask grid (x : Int) (y : Int)) = 0) := by
  refine ⟨?_, ?_, ?_, ?_⟩
  · unfold generate_autotile_grid
    rw [if_neg (by omega : ¬ grid.length = 0),
      getD_map_range _ hy, getD_map_range _ hx]
    rfl
  · exact Int.natCast_nonneg _
  · exact_mod_cast bitmaskToTile_le _
  · intro hfind
    unfold bitmaskToTile
    rw [hfind]
    rfl

/-- Witness for C5 at the corner cell (0, 0) of the all-occupied 5×5
grid (bitmask 208, no table entry, fallback index 0). -/
theorem C5_witness :
    (Rectangular exGrid5 ∧ 0 < exGrid5.length ∧
      0 < (exGrid5.headD []).length) ∧
    (((generate_autotile_grid exGrid5 AutotileType.GROUND).getD 0 []).getD 0 0
       = if (exGrid5.getD 0 []).getD 0 false
         then (bitmaskToTile (calculate_bitmask exGrid5 0 0) : Int)
         else -1) :=
  ⟨by decide,
   (C5_autotile_grid_cell exGrid5 AutotileType.GROUND (by decide) 0 0
     (by decide) (by decide)).1⟩

/-! ### Helper lemmas for the hazard damage sum -/

lemma foldl_damage (R : Rect) :
    ∀ (l : List (Rect × Int)) (a : Int),
    l.foldl (fun acc hd => if R.colliderect hd.1 then acc + hd.2 else acc) a
      = a + (l.map (fun hd => if R.colliderect hd.1 then hd.2 else 0)).sum := by
  intro l
  induction l with
  | nil => intro a; simp
  | cons hd tl ih =>
    intro a
    rw [List.foldl_cons, List.map_cons, List.sum_cons, ih]
    by_cases hc : R.colliderect hd.1 = true
    · rw [if_pos hc, if_pos hc]
      ring
    · rw [if_neg hc, if_neg hc]
      ring

lemma hazardRow_sum (R : Rect) (g : List (List Tile)) (y : Nat) :
    ∀ xs : List Nat,
    ((xs.filterMap (fun x =>
        let t := readCell g x y
        if t.hazard then some (tileRect x y, t.damage) else none)).map
      (fun hd => if R.colliderect hd.1 then hd.2 else 0)).sum
    = (xs.map (fun x =>
        let t := readCell g x y
        if t.hazard ∧ R.colliderect (tileRect x y) then t.damage else 0)).sum := by
  intro xs
  induction xs with
  | nil => rfl
  | cons x xs ih =>
    by_cases hh : (readCell g x y).hazard = true
    · by_cases hc : R.colliderect (tileRect x y) = true
      · simp [List.filterMap_cons, hh, hc, ih]
      · simp [List.filterMap_cons, hh, hc, ih]
    · simp [List.filterMap_cons, hh, ih]

lemma builtHazard_foldl_eq_sum (m : Tilemap) (R : Rect) :
    (m.builtHazardRects).foldl
      (fun acc hd => if R.colliderect hd.1 then acc + hd.2 else acc) 0
    = hazardDamageSum m R := by
  rw [foldl_damage, zero_add]
  unfold Tilemap.builtHazardRects hazardDamageSum
  rw [List.map_flatten, List.sum_flatten, List.sum_flatten, List.map_map,
    List.map_map, List.map_map]
  apply congrArg
  apply List.map_congr_left
  intro y _
  exact hazardRow_sum R m.hazard y (List.range m.width)

/-- C3 counterexample: in the reachable stale-cache state of claim C1's
failing input, the HAZARD layer holds exactly one hazard tile (damage 10)
whose rectangle overlaps R = (0, 0, 32, 32), yet `check_hazard_collision`
returns 0, not 10 — the claim fails on the code for such states. -/
theorem C3_counterexample_stale_cache :
    (Tilemap.check_hazard_collision exStale
        { x := 0, y := 0, w := 32, h := 32 }).2 = 0 ∧
    hazardDamageSum exStale { x := 0, y := 0, w := 32, h := 32 } = 10 := by
  decide

/-- C3 amended: provided the collision cache is coherent (dirty, or
consistent with the layer grids — every state not produced by the
un-flagged HAZARD mutation of claim C1), `check_hazard_collision(R)`
returns the sum of the damages of all hazard tiles of the HAZARD layer
whose rectangles overlap R. -/
theorem C3_amended_hazard_damage_summed (m : Tilemap) (R : Rect)
    (h : cacheCoherent m) :
    (m.check_hazard_collision R).2 = hazardDamageSum m R := by
  unfold Tilemap.check_hazard_collision Tilemap.get_hazard_rects
    Tilemap.update_collision_cache
  simp only
  cases hd : m.collision_cache_dirty with
  | true =>
    rw [if_neg (by decide : ¬ (true = false))]
    exact builtHazard_foldl_eq_sum m R
  | false =>
    rw [if_pos (rfl : (false = false))]
    rcases h with hdirty | ⟨_, hh⟩
    · rw [hd] at hdirty
      exact absurd hdirty (by decide)
    · rw [hh]
      exact builtHazard_foldl_eq_sum m R

/-- Witness for C3 amended: the coherent 2×2 map with one spike trap,
queried with the rectangle covering the whole map. -/
theorem C3_amended_witness :
    cacheCoherent exHzMap ∧
    (Tilemap.check_hazard_collision exHzMap
        { x := 0, y := 0, w := 64, h := 64 }).2
      = hazardDamageSum exHzMap { x := 0, y := 0, w := 64, h := 64 } :=
  ⟨by decide, C3_amended_hazard_damage_summed exHzMap _ (by decide)⟩

/-! ### Helper lemmas for the save/load round trip -/

lemma set_getD_self {α : Type} (l : List α) :
    ∀ (i : Nat) (d : α), i < l.length → l.set i (l.getD i d) = l := by
  induction l with
  | nil =>
    intro i d h
    simp at h
  | cons a tl ih =>
    intro i d h
    cases i with
    | zero => simp [List.getD]
    | succ j =>
      have h' : j < tl.length := by simpa using h
      calc (a :: tl).set (j + 1) ((a :: tl).getD (j + 1) d)
          = a :: tl.set j (tl.getD j d) := rfl
        _ = a :: tl := by rw [ih j d h']

lemma getD_set_self {α : Type} (l : List α) (i : Nat) (v d : α)
    (h : i < l.length) : (l.set i v).getD i d = v := by
  rw [List.getD_eq_getElem?_getD, List.getElem?_set_self h]
  rfl

lemma set_map_range_append {α : Type} (f : Nat → α) (l0 : List α) (k : Nat)
    (hk : k < l0.length) :
    (((List.range k).map f) ++ l0.drop k).set k (f k)
      = ((List.range (k + 1)).map f) ++ l0.drop (k + 1) := by
  have hlen : ((List.range k).map f).length = k := by simp
  rw [List.set_append_right k (f k) (le_of_eq hlen), hlen, Nat.sub_self,
    List.drop_eq_getElem_cons hk, List.set_cons_zero, List.range_succ,
    List.map_append, List.append_assoc]
  simp

lemma foldl_set_range {α : Type} (f : Nat → α) :
    ∀ (n : Nat) (l0 : List α), n ≤ l0.length →
    (List.range n).foldl (fun l i => l.set i (f i)) l0
      = ((List.range n).map f) ++ l0.drop n := by
  intro n
  induction n with
  | zero =>
    intro l0 _
    simp
  | succ k ih =>
    intro l0 h
    rw [List.range_succ, List.foldl_append, ih l0 (by omega)]
    simp only [List.foldl_cons, List.foldl_nil]
    rw [← List.range_succ]
    exact set_map_range_append f l0 k (by omega)

lemma rowfold {α : Type} (v : Nat → α) (y : Nat) :
    ∀ (n : Nat) (g : List (List α)), y < g.length →
    n ≤ (g.getD y []).length →
    (List.range n).foldl (fun g2 x => g2.set y ((g2.getD y []).set x (v x))) g
      = g.set y (((List.range n).map v) ++ (g.getD y []).drop n) := by
  intro n
  induction n with
  | zero =>
    intro g hy _
    simp only [List.range_zero, List.foldl_nil, List.map_nil,
      List.nil_append, List.drop_zero]
    exact (set_getD_self g y [] hy).symm
  | succ k ih =>
    intro g hy h
    rw [List.range_succ, List.foldl_append, ih g hy (by omega)]
    simp only [List.foldl_cons, List.foldl_nil]
    rw [getD_set_self g y _ [] hy, List.set_set]
    rw [set_map_range_append v (g.getD y []) k (by omega), ← List.range_succ]

lemma map_getD_range {α : Type} (d : α) (l : List α) :
    (List.range l.length).map (fun i => l.getD i d) = l := by
  apply List.ext_getElem?
  intro n
  rw [List.getElem?_map]
  by_cases hn : n < l.length
  · rw [List.getElem?_range hn, List.getElem?_eq_getElem hn]
    simp only [Option.map_some']
    rw [List.getD_eq_getElem _ _ hn]
  · rw [List.getElem?_eq_none (by simpa using not_lt.mp hn),
      List.getElem?_eq_none (not_lt.mp hn)]
    rfl

lemma grid_reconstruct (g : List (List Tile)) (w h : Nat)
    (hlen : g.length = h) (hrows : ∀ row ∈ g, row.length = w) :
    (List.range h).map (fun y => (List.range w).map (fun x => readCell g x y))
      = g := by
  subst hlen
  unfold readCell
  have hrw : ∀ y ∈ List.range g.length,
      (List.range w).map (fun x => (g.getD y []).getD x ({} : Tile))
        = g.getD y [] := by
    intro y hy
    have hyl : y < g.length := List.mem_range.mp hy
    have hrl : (g.getD y []).length = w := by
      apply hrows
      rw [List.getD_eq_getElem _ _ hyl]
      exact List.getElem_mem hyl
    rw [← hrl]
    exact map_getD_range {} (g.getD y [])
  rw [List.map_congr_left hrw]
  exact map_getD_range [] g

lemma encodeGrid_row (gOrig : List (List Tile)) {w h y : Nat} (hy : y < h) :
    (encodeGrid gOrig w h).get? y
      = some ((List.range w).map (fun x => encodeTile (readCell gOrig x y))) := by
  unfold encodeGrid
  rw [List.get?_eq_getElem?, List.getElem?_map, List.getElem?_range hy]
  rfl

lemma loadCellsX_encode (gOrig : List (List Tile)) (w h y : Nat)
    (hy : y < h) :
    ∀ (xs : List Nat), (∀ x ∈ xs, x < w) → ∀ gAcc : List (List Tile),
    loadCellsX gAcc (encodeGrid gOrig w h) y xs
      = .cont (xs.foldl
          (fun ga x => writeCell ga x y (readCell gOrig x y)) gAcc) := by
  intro xs
  induction xs with
  | nil =>
    intro _ gAcc
    rfl
  | cons x xs ih =>
    intro hmem gAcc
    have hx : x < w := hmem x (List.mem_cons_self x xs)
    have hcellv : ((List.range w).map
        (fun x2 => encodeTile (readCell gOrig x2 y))).get? x
        = some (encodeTile (readCell gOrig x y)) := by
      rw [List.get?_eq_getElem?, List.getElem?_map, List.getElem?_range hx]
      rfl
    simp only [encodeTile] at hcellv
    simp only [loadCellsX, encodeGrid_row gOrig hy, encodeTile, hcellv,
      Option.getD_some, List.foldl_cons]
    exact ih (fun a ha => hmem a (List.mem_cons_of_mem x ha)) _

lemma loadCellsY_encode (gOrig : List (List Tile)) (w h : Nat) :
    ∀ (ys : List Nat), (∀ y ∈ ys, y < h) →
    ∀ gAcc : List (List Tile), gAcc.length = h →
    (∀ row ∈ gAcc, row.length = w) →
    loadCellsY gAcc (encodeGrid gOrig w h) w ys
      = .cont (ys.foldl
          (fun ga y =>
            ga.set y ((List.range w).map (fun x => readCell gOrig x y))) gAcc) := by
  intro ys
  induction ys with
  | nil =>
    intro _ gAcc _ _
    rfl
  | cons y ys ih =>
    intro hmem gAcc hga hrowsga
    have hy : y < h := hmem y (List.mem_cons_self y ys)
    have hrl : (gAcc.getD y []).length = w := by
      apply hrowsga
      rw [List.getD_eq_getElem _ _ (by omega : y < gAcc.length)]
      exact List.getElem_mem _
    have hrow := rowfold (fun x => readCell gOrig x y) y w gAcc
      (by omega) (le_of_eq hrl.symm)
    simp only [loadCellsY,
      loadCellsX_encode gOrig w h y hy (List.range w)
        (fun x hx => List.mem_range.mp hx) gAcc]
    simp only [writeCell] at hrow ⊢
    rw [hrow, show (gAcc.getD y []).drop w = [] from by
        rw [← hrl]; exact List.drop_length _,
      List.append_nil, List.foldl_cons]
    exact ih (fun a ha => hmem a (List.mem_cons_of_mem y ha)) _
      (by simpa using hga)
      (by
        intro row hr
        rcases List.mem_or_eq_of_mem_set hr with hmem2 | hEq
        · exact hrowsga row hmem2
        · rw [hEq]
          simp)

/-- C2: loading the data produced by `save_to_json` reconstructs the
tilemap — whatever tilemap the method is called on ends with the saved
width, height and the three saved layer grids, with the collision cache
marked dirty — and every `get_tile` query on the loaded map returns a
tile whose fields (tile_id, sprite_row, sprite_col, solid, hazard,
damage are all of the modelled fields) equal the original's. -/
theorem C2_save_load_roundtrip (m m₀ : Tilemap) (hWF : m.WF) :
    m₀.load_from_json (.parsed m.save_to_json)
      = .ok { m₀ with
          width := m.width,
          height := m.height,
          solid := m.solid,
          decor := m.decor,
          hazard := m.hazard,
          collision_cache_dirty := true } ∧
    ∀ (layer : TileLayer) (x y : Int),
      ({ m₀ with
          width := m.width,
          height := m.height,
          solid := m.solid,
          decor := m.decor,
          hazard := m.hazard,
          collision_cache_dirty := true } : Tilemap).get_tile layer x y
        = m.get_tile layer x y := by
  obtain ⟨⟨hslen, hsrows⟩, ⟨hdlen, hdrows⟩, ⟨hhlen, hhrows⟩⟩ := hWF
  have hmk_len : (mkGrid m.width m.height).length = m.height := by
    simp [mkGrid]
  have hmk_rows : ∀ row ∈ mkGrid m.width m.height, row.length = m.width := by
    intro row hr
    unfold mkGrid at hr
    rw [List.eq_of_mem_replicate hr]
    simp
  have hdrop : (mkGrid m.width m.height).drop m.height = [] := by
    unfold mkGrid
    rw [List.drop_replicate]
    simp
  have hload : ∀ g : List (List Tile), gridWF g m.width m.height →
      loadCellsY (mkGrid m.width m.height) (encodeGrid g m.width m.height)
        m.width (List.range m.height) = .cont g := by
    intro g hg
    obtain ⟨hl, hr⟩ := hg
    rw [loadCellsY_encode g m.width m.height (List.range m.height)
      (fun y hy => List.mem_range.mp hy) (mkGrid m.width m.height)
      hmk_len hmk_rows]
    rw [foldl_set_range _ m.height _ (le_of_eq hmk_len.symm), hdrop,
      List.append_nil, grid_reconstruct g _ _ hl hr]
  constructor
  · unfold Tilemap.save_to_json Tilemap.load_from_json
    simp only [loadLayers, tileLayerOfString, Tilemap.layerGrid,
      Tilemap.setLayerGrid]
    rw [hload m.solid ⟨hslen, hsrows⟩, hload m.decor ⟨hdlen, hdrows⟩,
      hload m.hazard ⟨hhlen, hhrows⟩]
  · intro layer x y
    cases layer <;> rfl

/-- Witness for C2: the 2×2 map with one spike trap saved, then loaded
into a fresh 1×1 map. -/
theorem C2_witness :
    Tilemap.WF exHzMap ∧
    (exMap1.load_from_json (.parsed exHzMap.save_to_json)
      = .ok { exMap1 with
          width := exHzMap.width,
          height := exHzMap.height,
          solid := exHzMap.solid,
          decor := exHzMap.decor,
          hazard := exHzMap.hazard,
          collision_cache_dirty := true } ∧
    ∀ (layer : TileLayer) (x y : Int),
      ({ exMap1 with
          width := exHzMap.width,
          height := exHzMap.height,
          solid := exHzMap.solid,
          decor := exHzMap.decor,
          hazard := exHzMap.hazard,
          collision_cache_dirty := true } : Tilemap).get_tile layer x y
        = exHzMap.get_tile layer x y) :=
  ⟨by decide, C2_save_load_roundtrip exHzMap exMap1 (by decide)⟩

end Pietrom
